import Mathlib

/-!
Shallow embedding of the transaction-processing core of the CitrineOS
central system (TypeScript sources: `TransactionsModule` and
`SecurityEventRepository`), together with theorems settling the claims
about it.

Modelling conventions:
* TypeScript `number` is modelled as `ℚ` (the numbers involved are
  decimal quantities; no NaN/Infinity arises on the modelled paths).
* A TypeScript optional/nullable value (`T | undefined | null`) is
  modelled as `Option`; the code only ever distinguishes `null` from
  `undefined` through JavaScript truthiness, under which both are falsy,
  so collapsing them is faithful.
* JavaScript truthiness of an optional number (`if (x)`) is `jsTruthyNum`:
  `none` is falsy and `some q` is truthy iff `q ≠ 0` (no NaN in `ℚ`).
* External collaborators (repositories, the signed-meter-value validator,
  the authorization service) are boundary contracts in the source; they
  are modelled as oracle fields of an environment record, and handlers
  return, besides their value, an explicit trace of the side effects they
  request from those collaborators, in source order.
-/

namespace CitrineOS

/-- JavaScript truthiness of `number | undefined | null`:
`undefined`/`null` and `0` are falsy, every other number is truthy. -/
def jsTruthyNum (x : Option ℚ) : Bool :=
  match x with
  | none => false
  | some q => q != 0

/-- JavaScript truthiness of an optional integer (`reservationId?: number`):
`undefined`/`null` and `0` are falsy. -/
def jsTruthyInt (x : Option Int) : Bool :=
  match x with
  | none => false
  | some n => n != 0

/-- JavaScript truthiness of `boolean | undefined`. -/
def jsTruthyBool (x : Option Bool) : Bool :=
  match x with
  | none => false
  | some b => b

/-- The `TransactionEventEnumType` from the OCPP 2.0.1 schema. -/
inductive TransactionEventEnumType
  | Started
  | Updated
  | Ended
deriving DecidableEq, Repr

/-- The `AuthorizationStatusEnumType` from the OCPP 2.0.1 schema. -/
inductive AuthorizationStatusEnumType
  | Accepted
  | Blocked
  | ConcurrentTx
  | Expired
  | Invalid
  | NoCredit
  | NotAllowedTypeEVSE
  | NotAtThisLocation
  | NotAtThisTime
  | Unknown
deriving DecidableEq, Repr

/-- The `ErrorCode` values from `@citrineos/base` relevant to this core. -/
inductive ErrorCode
  | FormatViolation
  | GenericError
  | InternalError
  | SecurityError
deriving DecidableEq, Repr

/-- An `OcppError` as thrown by the handlers: correlation id, error code,
error description. -/
structure OcppError where
  correlationId : String
  errorCode : ErrorCode
  errorDescription : String
deriving DecidableEq, Repr

/-- A meter value: a timestamped sampled measurement. The sampled energy
content is abstracted into a single rational `value` field, which is all
the modelled aggregation (`getTotalKwh`) reads. -/
structure MeterValue where
  timestamp : Nat
  value : ℚ
deriving DecidableEq, Repr

/-- Modelled from the spec: `MeterValueUtils.getTotalKwh` lives in
`@citrineos/base`, outside the given sources. The spec says meter values
are "aggregated by summation/derivation into total kWh" and that the
total is derived "by summing/reducing all meter values recorded against
the transaction", so the model sums the sampled values. -/
def getTotalKwh (mvs : List MeterValue) : ℚ :=
  (mvs.map (fun mv => mv.value)).sum

/-- A `Tariff` record: one active pricing record per station. -/
structure Tariff where
  id : Nat
  pricePerKwh : ℚ
deriving DecidableEq, Repr

/-- A durable `Transaction` record. -/
structure Transaction where
  id : Nat
  transactionId : String
  stationId : String
  isActive : Bool
  totalKwh : Option ℚ
deriving DecidableEq, Repr

/-- A `Reservation` record. -/
structure Reservation where
  id : Int
  stationId : String
  isActive : Bool
  terminatedByTransaction : Option String
deriving DecidableEq, Repr

/-- The `TransactionsModule._roundCost`: floor the given cost to 2 decimal
places (`Math.floor(cost * 100) / 100`). -/
def roundCost (cost : ℚ) : ℚ :=
  (⌊cost * 100⌋ : ℚ) / 100

/-- Environment of `_calculateTotalCost`: the answers of the two
repository reads it performs (`tariffRepository.findByStationId` and
`transactionEventRepository.readAllMeterValuesByTransactionDataBaseId`). -/
structure CalcEnv where
  tariff : Option Tariff
  meterValuesOfTransaction : List MeterValue
deriving DecidableEq, Repr

/-- Observable outcome of `_calculateTotalCost`: the returned cost,
whether the total kWh was re-derived from the stored meter values, and
the `Transaction.update` write of the derived total (if any). -/
structure CalcResult where
  totalCost : ℚ
  derivedFromMeterValues : Bool
  persistedKwh : Option ℚ
deriving DecidableEq, Repr

/-- The `TransactionsModule._calculateTotalCost`: look up the tariff for the
station; without one, return 0. With one, if the passed `totalKwh` is
falsy (`undefined`, `null` or `0`: the source tests `if (!totalKwh)`),
derive the total by aggregating all meter values of the transaction and
persist it onto the transaction record; then return
`_roundCost(totalKwh * tariff.pricePerKwh)`. -/
def calculateTotalCost (env : CalcEnv) (totalKwh : Option ℚ) : CalcResult :=
  match env.tariff with
  | none =>
      { totalCost := 0, derivedFromMeterValues := false, persistedKwh := none }
  | some tariff =>
      if jsTruthyNum totalKwh then
        { totalCost := roundCost ((totalKwh.getD 0) * tariff.pricePerKwh)
          derivedFromMeterValues := false
          persistedKwh := none }
      else
        let k := getTotalKwh env.meterValuesOfTransaction
        { totalCost := roundCost (k * tariff.pricePerKwh)
          derivedFromMeterValues := true
          persistedKwh := some k }

/-- The `MessageContext`: station, tenant and correlation identifiers carried
by every inbound message. -/
structure MessageContext where
  stationId : String
  tenantId : String
  correlationId : String
deriving DecidableEq, Repr

/-- An inbound message envelope `IMessage<T>` restricted to the fields
this core reads: context and payload. -/
structure IMessage (α : Type) where
  context : MessageContext
  payload : α
deriving DecidableEq, Repr

/-- The `transactionInfo` of a `TransactionEventRequest`, restricted to the
field this core reads. -/
structure TransactionInfo where
  transactionId : String
deriving DecidableEq, Repr

/-- An identity token; its contents are opaque to this core. -/
structure IdToken where
  idToken : String
deriving DecidableEq, Repr

/-- A `TransactionEventRequest` payload, restricted to the fields the
handler reads. -/
structure TransactionEventRequest where
  eventType : TransactionEventEnumType
  transactionInfo : TransactionInfo
  idToken : Option IdToken
  reservationId : Option Int
  meterValue : Option (List MeterValue)
deriving DecidableEq, Repr

/-- The `idTokenInfo` of a `TransactionEventResponse`, restricted to the
status field the handler inspects. -/
structure IdTokenInfo where
  status : AuthorizationStatusEnumType
deriving DecidableEq, Repr

/-- A `TransactionEventResponse`. -/
structure TransactionEventResponse where
  idTokenInfo : Option IdTokenInfo
  totalCost : Option ℚ
deriving DecidableEq, Repr

/-- A `MeterValuesRequest` payload. -/
structure MeterValuesRequest where
  meterValue : List MeterValue
deriving DecidableEq, Repr

/-- One side effect requested from an external collaborator by
`_handleTransactionEvent`, in source order. -/
inductive Effect
  /-- The `transactionEventRepository.createOrUpdateTransactionByTransactionEventAndStationId` -/
  | createOrUpdateTransaction (payload : TransactionEventRequest) (stationId : String)
  /-- The `reservationRepository.updateAllByQuery` with values
  `{terminatedByTransaction, isActive: false}` and the where clause
  `{id: reservationId, stationId}` -/
  | updateReservations (reservationId : Int) (stationId : String) (transactionId : String)
  /-- The `transactionService.authorizeIdToken` -/
  | authorizeIdToken
  /-- The `sendCallResultWithMessage` -/
  | sendResponse (response : TransactionEventResponse)
  /-- the `setInterval` timer of `_updateCost` is started -/
  | armCostUpdater (stationId : String) (transactionId : String) (interval : ℚ)
  /-- The `transactionEventRepository.readTransactionByStationIdAndTransactionId` -/
  | readTransaction (stationId : String) (transactionId : String)
  /-- The `_calculateTotalCost` runs: `tariffRepository.findByStationId`, and on
  the derivation path also the meter-value read -/
  | calculateCost
  /-- The `Transaction.update({totalKwh})` inside `_calculateTotalCost` -/
  | persistTotalKwh (kwh : ℚ)
  /-- The `deviceModelRepository.readAllByQuerystring` for `TariffCostCtrlr` -/
  | readDeviceModel
  /-- The `signedMeterValuesUtil.validateMeterValues` -/
  | validateMeterValues
  /-- The `logger.warn` -/
  | logWarning (text : String)
deriving DecidableEq, Repr

/-- Oracle answers of the external collaborators consulted by
`_handleTransactionEvent`, plus the two configuration values read from
`SystemConfig` at construction. -/
structure TransactionsEnv where
  /-- The `config.modules.transactions.costUpdatedInterval` (`number | undefined`) -/
  costUpdatedInterval : Option ℚ
  /-- The `config.modules.transactions.sendCostUpdatedOnMeterValue` (`boolean | undefined`) -/
  sendCostUpdatedOnMeterValue : Option Bool
  /-- answer of `transactionService.authorizeIdToken` -/
  authResponse : TransactionEventResponse
  /-- current contents of the reservation store -/
  reservations : List Reservation
  /-- answer of `readTransactionByStationIdAndTransactionId` -/
  transaction : Option Transaction
  /-- answer of `tariffRepository.findByStationId` -/
  tariff : Option Tariff
  /-- answer of `readAllMeterValuesByTransactionDataBaseId` -/
  meterValuesOfTransaction : List MeterValue
  /-- answer of `signedMeterValuesUtil.validateMeterValues` (batch-level:
  any invalid signature in the batch yields `false`) -/
  meterValuesValid : Bool
deriving DecidableEq, Repr

/-- Observable outcome of `_handleTransactionEvent`. -/
structure HandlerResult where
  trace : List Effect
  response : TransactionEventResponse
  warningLogged : Bool
  costUpdaterArmed : Bool
  reservations : List Reservation
  thrownError : Option OcppError
deriving DecidableEq, Repr

/-- Trace fragment of one `_calculateTotalCost` run. -/
def calcEffects (r : CalcResult) : List Effect :=
  Effect.calculateCost ::
    (match r.persistedKwh with
     | some k => [Effect.persistTotalKwh k]
     | none => [])

/-- The reservation-store contents after
`reservationRepository.updateAllByQuery({terminatedByTransaction, isActive: false},
{where: {id, stationId}})`: every reservation matching the where clause
gets both fields written, all others are untouched. -/
def updateReservationsByQuery (store : List Reservation) (reservationId : Int)
    (stationId : String) (transactionId : String) : List Reservation :=
  store.map (fun r =>
    if r.id = reservationId ∧ r.stationId = stationId then
      { r with isActive := false, terminatedByTransaction := some transactionId }
    else r)

/-- The `TransactionsModule._handleTransactionEvent`, source order:
1. unconditionally `createOrUpdateTransactionByTransactionEventAndStationId`;
2. if `payload.reservationId` is truthy, update matching reservations;
3. with an idToken: authorize, send the authorization response, and if the
   event is `Started`, the status `Accepted` and `costUpdatedInterval`
   truthy, start the periodic cost updater;
4. without an idToken: read the transaction; on `Updated` optionally
   compute the cost and read the tariff-support device-model attribute;
   on `Ended` with a tracked transaction compute the cost; if meter
   values are present validate them, logging a warning when invalid; send
   the response. The source contains no `throw` on any path. -/
def handleTransactionEvent (env : TransactionsEnv)
    (message : IMessage TransactionEventRequest) : HandlerResult :=
  let stationId := message.context.stationId
  let transactionEvent := message.payload
  let transactionId := transactionEvent.transactionInfo.transactionId
  let reservationStep : Bool := jsTruthyInt transactionEvent.reservationId
  let rid := transactionEvent.reservationId.getD 0
  let reservations1 :=
    if reservationStep then
      updateReservationsByQuery env.reservations rid stationId transactionId
    else env.reservations
  let traceR : List Effect :=
    if reservationStep then [Effect.updateReservations rid stationId transactionId]
    else []
  let trace0 := Effect.createOrUpdateTransaction transactionEvent stationId :: traceR
  match transactionEvent.idToken with
  | some _ =>
      let response := env.authResponse
      let accepted : Bool :=
        match response.idTokenInfo with
        | some info => info.status == AuthorizationStatusEnumType.Accepted
        | none => false
      let armed : Bool :=
        (transactionEvent.eventType == TransactionEventEnumType.Started)
        && accepted && jsTruthyNum env.costUpdatedInterval
      { trace := trace0 ++ [Effect.authorizeIdToken, Effect.sendResponse response]
          ++ (if armed then
                [Effect.armCostUpdater stationId transactionId
                   (env.costUpdatedInterval.getD 0)]
              else [])
        response := response
        warningLogged := false
        costUpdaterArmed := armed
        reservations := reservations1
        thrownError := none }
  | none =>
      let transaction := env.transaction
      let updatedCostStep : Bool :=
        (transactionEvent.eventType == TransactionEventEnumType.Updated)
        && (match transaction with
            | some t => t.isActive
            | none => false)
        && jsTruthyBool env.sendCostUpdatedOnMeterValue
      let endedCostStep : Bool :=
        (transactionEvent.eventType == TransactionEventEnumType.Ended)
        && transaction.isSome
      let cachedKwh : Option ℚ :=
        match transaction with
        | some t => t.totalKwh
        | none => none
      let calcRes : CalcResult :=
        calculateTotalCost ⟨env.tariff, env.meterValuesOfTransaction⟩ cachedKwh
      let totalCost : Option ℚ :=
        if updatedCostStep || endedCostStep then some calcRes.totalCost else none
      let warn : Bool := transactionEvent.meterValue.isSome && !env.meterValuesValid
      let response : TransactionEventResponse :=
        { idTokenInfo := none, totalCost := totalCost }
      { trace := trace0
          ++ [Effect.readTransaction stationId transactionId]
          ++ (if transactionEvent.eventType == TransactionEventEnumType.Updated then
               (if updatedCostStep then calcEffects calcRes else [])
                 ++ [Effect.readDeviceModel]
              else [])
          ++ (if endedCostStep then calcEffects calcRes else [])
          ++ (if transactionEvent.meterValue.isSome then
                Effect.validateMeterValues ::
                  (if !env.meterValuesValid then
                    [Effect.logWarning
                      "One or more MeterValues in this TransactionEvent have an invalid signature."]
                   else [])
              else [])
          ++ [Effect.sendResponse response]
        response := response
        warningLogged := warn
        costUpdaterArmed := false
        reservations := reservations1
        thrownError := none }

/-- One side effect of `_handleMeterValues`, in source order. -/
inductive MVEffect
  /-- The `transactionEventRepository.createMeterValue` for one meter value -/
  | createMeterValue (mv : MeterValue)
  /-- The `signedMeterValuesUtil.validateMeterValues` on the whole payload -/
  | validateSignatures
  /-- The `throw new OcppError(...)` -/
  | throwError (e : OcppError)
  /-- The `sendCallResultWithMessage` with the (empty) `MeterValuesResponse` -/
  | sendResponse
deriving DecidableEq, Repr

/-- Oracle answers consulted by `_handleMeterValues`. -/
structure MeterValuesEnv where
  /-- answer of `signedMeterValuesUtil.validateMeterValues` on the payload
  (batch-level: any invalid signature in the batch yields `false`) -/
  meterValuesValid : Bool
deriving DecidableEq, Repr

/-- Observable outcome of `_handleMeterValues`. -/
structure MeterValuesResult where
  trace : List MVEffect
  /-- the meter values handed to `createMeterValue`, i.e. durably persisted -/
  persistedMeterValues : List MeterValue
  thrownError : Option OcppError
  responseSent : Bool
deriving DecidableEq, Repr

/-- The `TransactionsModule._handleMeterValues`, source order: persist every
meter value of the payload (`Promise.all` of `createMeterValue`), then
validate signatures; when invalid, `throw new OcppError(correlationId,
ErrorCode.SecurityError, ...)` — nothing after the throw runs, so no
response is sent; when valid, send the empty response. -/
def handleMeterValues (env : MeterValuesEnv)
    (message : IMessage MeterValuesRequest) : MeterValuesResult :=
  let meterValues := message.payload.meterValue
  let persistTrace := meterValues.map MVEffect.createMeterValue
  if !env.meterValuesValid then
    let e : OcppError :=
      { correlationId := message.context.correlationId
        errorCode := ErrorCode.SecurityError
        errorDescription := "One or more MeterValues have an invalid signature." }
    { trace := persistTrace ++ [MVEffect.validateSignatures, MVEffect.throwError e]
      persistedMeterValues := meterValues
      thrownError := some e
      responseSent := false }
  else
    { trace := persistTrace ++ [MVEffect.validateSignatures, MVEffect.sendResponse]
      persistedMeterValues := meterValues
      thrownError := none
      responseSent := true }

/-- A `SecurityEvent` record, restricted to the fields the read path
constrains. Timestamps are modelled as rationals; the source converts
`Date` bounds with `toISOString()` and the store compares them as
timestamps, and that conversion is order-preserving. -/
structure SecurityEvent where
  stationId : String
  timestamp : ℚ
deriving DecidableEq, Repr

/-- The timestamp part of the where clause built by
`SecurityEventRepository.generateTimestampQuery`. -/
inductive TimestampQuery
  /-- The `{}` -/
  | noBound
  /-- The `{timestamp: {[Op.lte]: to}}` -/
  | lte (toBound : ℚ)
  /-- The `{timestamp: {[Op.gte]: from}}` -/
  | gte (fromBound : ℚ)
  /-- The `{timestamp: {[Op.between]: [from, to]}}` -/
  | between (fromBound : ℚ) (toBound : ℚ)
deriving DecidableEq, Repr

/-- The `SecurityEventRepository.generateTimestampQuery`. The source tests
JavaScript truthiness of the ISO strings; an ISO date string is never
empty, so truthiness coincides with presence. -/
def generateTimestampQuery (fromBound toBound : Option ℚ) : TimestampQuery :=
  match fromBound, toBound with
  | none, none => TimestampQuery.noBound
  | none, some t => TimestampQuery.lte t
  | some f, none => TimestampQuery.gte f
  | some f, some t => TimestampQuery.between f t

/-- Whether a timestamp satisfies a `TimestampQuery`: `Op.lte`/`Op.gte`
are inclusive, and SQL `BETWEEN` is inclusive on both ends. -/
def matchesTimestampQuery (q : TimestampQuery) (ts : ℚ) : Bool :=
  match q with
  | TimestampQuery.noBound => true
  | TimestampQuery.lte t => ts ≤ t
  | TimestampQuery.gte f => f ≤ ts
  | TimestampQuery.between f t => f ≤ ts && ts ≤ t

/-- The `SecurityEventRepository.readByStationIdAndTimestamps`: read all
security events whose `stationId` equals the given one and whose
timestamp satisfies the query built from the optional bounds. -/
def readByStationIdAndTimestamps (store : List SecurityEvent)
    (stationId : String) (fromBound toBound : Option ℚ) : List SecurityEvent :=
  let timestampQuery := generateTimestampQuery fromBound toBound
  store.filter (fun e =>
    e.stationId == stationId && matchesTimestampQuery timestampQuery e.timestamp)

/-! ## Theorems -/

/-- C6: for every cost value `c`, `_roundCost` returns `⌊c * 100⌋ / 100`,
which never exceeds `c` (rounding is always downward, by less than one
cent, never to nearest); in particular 1.2378 maps to 1.23 and 1.005 maps
to 1.00 (round-to-nearest would give 1.01). -/
theorem C6_roundCost_floors_to_two_decimals :
    (∀ c : ℚ, roundCost c = (⌊c * 100⌋ : ℚ) / 100
       ∧ roundCost c ≤ c ∧ c - roundCost c < 1 / 100)
    ∧ roundCost (12378 / 10000) = 123 / 100
    ∧ roundCost (1005 / 1000) = 1 := by
  refine ⟨fun c => ⟨rfl, ?_, ?_⟩, by norm_num [roundCost], by norm_num [roundCost]⟩
  · have h := Int.floor_le (c * 100)
    rw [roundCost]
    linarith
  · have h := Int.lt_floor_add_one (c * 100)
    rw [roundCost]
    linarith

/-- C5: for a station with no tariff record, `_calculateTotalCost`
returns 0 whatever the passed kWh total and whatever meter values are
stored, performs no derivation and no persistence, and (being a total
function on this path, with no `throw` in the source) raises no error. -/
theorem C5_no_tariff_returns_zero :
    ∀ (mvs : List MeterValue) (totalKwh : Option ℚ),
      calculateTotalCost { tariff := none, meterValuesOfTransaction := mvs } totalKwh
        = { totalCost := 0, derivedFromMeterValues := false, persistedKwh := none } := by
  intro mvs totalKwh
  rfl

/-- C4 as stated is false: a supplied kWh total of `0` is "a kWh total
supplied", yet the source tests `if (!totalKwh)` and `0` is falsy, so the
code re-derives the total from the stored meter values instead of using
the supplied value. With price-per-kWh 1 and one stored meter value of
5 kWh, the result is 5 (with a re-derivation persisted), not
`floorRound(0 * 1) = 0`. -/
theorem C4_counterexample_supplied_zero :
    ¬ ((calculateTotalCost
          { tariff := some { id := 1, pricePerKwh := 1 },
            meterValuesOfTransaction := [{ timestamp := 0, value := 5 }] }
          (some 0)).totalCost = roundCost (0 * 1)
       ∧ (calculateTotalCost
          { tariff := some { id := 1, pricePerKwh := 1 },
            meterValuesOfTransaction := [{ timestamp := 0, value := 5 }] }
          (some 0)).derivedFromMeterValues = false) := by
  intro h
  have h1 := h.1
  norm_num [calculateTotalCost, jsTruthyNum, getTotalKwh, roundCost] at h1

/-- C4 amended: when an active tariff exists, a supplied **nonzero** kWh
total is used directly — the result is `floorRound(supplied * pricePerKwh)`
with no re-derivation and no persistence; when no total is supplied, the
total is derived by aggregating the transaction's stored meter values,
persisted onto the transaction record, and the result is
`floorRound(derived * pricePerKwh)`. With price-per-kWh 0.30 and stored
meter values summing to 12.5 kWh the derived result is 3.75 (and 12.5 is
persisted); with a supplied cached total of 10.0 the result is 3.00. -/
theorem C4_calculateTotalCost_with_tariff :
    (∀ (t : Tariff) (mvs : List MeterValue) (k : ℚ), k ≠ 0 →
       calculateTotalCost { tariff := some t, meterValuesOfTransaction := mvs } (some k)
         = { totalCost := roundCost (k * t.pricePerKwh)
             derivedFromMeterValues := false
             persistedKwh := none })
    ∧ (∀ (t : Tariff) (mvs : List MeterValue),
       calculateTotalCost { tariff := some t, meterValuesOfTransaction := mvs } none
         = { totalCost := roundCost (getTotalKwh mvs * t.pricePerKwh)
             derivedFromMeterValues := true
             persistedKwh := some (getTotalKwh mvs) })
    ∧ (calculateTotalCost
         { tariff := some { id := 7, pricePerKwh := 3 / 10 },
           meterValuesOfTransaction := [{ timestamp := 0, value := 125 / 10 }] }
         none)
        = { totalCost := 375 / 100, derivedFromMeterValues := true,
            persistedKwh := some (125 / 10) }
    ∧ (calculateTotalCost
         { tariff := some { id := 7, pricePerKwh := 3 / 10 },
           meterValuesOfTransaction := [{ timestamp := 0, value := 125 / 10 }] }
         (some 10))
        = { totalCost := 3, derivedFromMeterValues := false, persistedKwh := none } := by
  refine ⟨fun t mvs k hk => ?_, fun t mvs => ?_, ?_, ?_⟩
  · simp [calculateTotalCost, jsTruthyNum, hk]
  · simp [calculateTotalCost, jsTruthyNum]
  · simp [calculateTotalCost, jsTruthyNum, getTotalKwh]
    norm_num [roundCost]
  · simp [calculateTotalCost, jsTruthyNum]
    norm_num [roundCost]

/-- Closed witness for the amended C4 theorem at concrete inputs. -/
theorem C4_calculateTotalCost_with_tariff_witness :
    calculateTotalCost
        { tariff := some { id := 7, pricePerKwh := 3 / 10 },
          meterValuesOfTransaction := [] } (some 10)
      = { totalCost := 3, derivedFromMeterValues := false, persistedKwh := none } := by
  have h := C4_calculateTotalCost_with_tariff.1 { id := 7, pricePerKwh := 3 / 10 } []
    10 (by norm_num)
  rw [h]
  norm_num [roundCost]

/-- C9: with a tariff present, a supplied kWh total of `0` is not used:
the call behaves exactly like a call with no supplied total — the total
is re-derived from the transaction's stored meter values and persisted
onto the transaction record. (A supplied `null` is modelled as `none`,
i.e. literally the no-total case, since the source only inspects the
argument through the falsiness test `if (!totalKwh)`.) -/
theorem C9_supplied_zero_rederives :
    ∀ (t : Tariff) (mvs : List MeterValue),
      calculateTotalCost { tariff := some t, meterValuesOfTransaction := mvs } (some 0)
          = calculateTotalCost { tariff := some t, meterValuesOfTransaction := mvs } none
      ∧ (calculateTotalCost { tariff := some t, meterValuesOfTransaction := mvs }
          (some 0)).derivedFromMeterValues = true
      ∧ (calculateTotalCost { tariff := some t, meterValuesOfTransaction := mvs }
          (some 0)).persistedKwh = some (getTotalKwh mvs) := by
  intro t mvs
  refine ⟨rfl, ?_, ?_⟩ <;> simp [calculateTotalCost, jsTruthyNum]

/-- C10: `readByStationIdAndTimestamps` returns exactly the security
events of the given station whose timestamp satisfies the given bounds:
no timestamp constraint with no bounds, `timestamp ≤ to` with only `to`,
`from ≤ timestamp` with only `from`, and the inclusive
`from ≤ timestamp ≤ to` with both. -/
theorem C10_readByStationIdAndTimestamps_exact :
    ∀ (store : List SecurityEvent) (stationId : String)
      (fromBound toBound : Option ℚ) (e : SecurityEvent),
      e ∈ readByStationIdAndTimestamps store stationId fromBound toBound
        ↔ e ∈ store ∧ e.stationId = stationId ∧
            (match fromBound, toBound with
             | none, none => True
             | none, some t => e.timestamp ≤ t
             | some f, none => f ≤ e.timestamp
             | some f, some t => f ≤ e.timestamp ∧ e.timestamp ≤ t) := by
  intro store stationId fromBound toBound e
  rw [readByStationIdAndTimestamps, List.mem_filter]
  cases fromBound <;> cases toBound <;>
    simp [generateTimestampQuery, matchesTimestampQuery, and_assoc]

/-- C2: a `MeterValues` submission whose signature validation fails is
rejected as a whole with a security-class `OcppError` carrying the
message's correlation id; no response is sent, and every meter value of
the payload (the valid ones included) was handed to `createMeterValue`
— i.e. durably persisted — before the error is raised, the persistence
effects preceding the throw in the effect trace. -/
theorem C2_invalid_meter_values_rejected_after_persist :
    ∀ (env : MeterValuesEnv) (message : IMessage MeterValuesRequest),
      env.meterValuesValid = false →
        (handleMeterValues env message).persistedMeterValues = message.payload.meterValue
        ∧ (handleMeterValues env message).thrownError
            = some { correlationId := message.context.correlationId
                     errorCode := ErrorCode.SecurityError
                     errorDescription := "One or more MeterValues have an invalid signature." }
        ∧ (handleMeterValues env message).responseSent = false
        ∧ (handleMeterValues env message).trace
            = message.payload.meterValue.map MVEffect.createMeterValue
              ++ [MVEffect.validateSignatures,
                  MVEffect.throwError
                    { correlationId := message.context.correlationId
                      errorCode := ErrorCode.SecurityError
                      errorDescription := "One or more MeterValues have an invalid signature." }] := by
  intro env message h
  refine ⟨?_, ?_, ?_, ?_⟩ <;> simp [handleMeterValues, h]

/-- Closed witness for C2: a concrete submission of two meter values with
failing signature validation persists both values and throws the
security error without sending a response. -/
theorem C2_invalid_meter_values_rejected_after_persist_witness :
    (handleMeterValues { meterValuesValid := false }
        { context := { stationId := "CS1", tenantId := "T1", correlationId := "corr-1" }
          payload := { meterValue := [{ timestamp := 1, value := 2 }, { timestamp := 2, value := 3 }] } }).persistedMeterValues
      = [{ timestamp := 1, value := 2 }, { timestamp := 2, value := 3 }]
    ∧ (handleMeterValues { meterValuesValid := false }
        { context := { stationId := "CS1", tenantId := "T1", correlationId := "corr-1" }
          payload := { meterValue := [{ timestamp := 1, value := 2 }, { timestamp := 2, value := 3 }] } }).responseSent
      = false := by
  have h := C2_invalid_meter_values_rejected_after_persist { meterValuesValid := false }
    { context := { stationId := "CS1", tenantId := "T1", correlationId := "corr-1" }
      payload := { meterValue := [{ timestamp := 1, value := 2 }, { timestamp := 2, value := 3 }] } }
    rfl
  exact ⟨h.1, h.2.2.1⟩

/-- Helper: the reservation store after `_handleTransactionEvent` — the
conditional bulk update runs exactly when `payload.reservationId` is
truthy, on both the idToken and the anonymous paths. -/
theorem handleTransactionEvent_reservations
    (env : TransactionsEnv) (message : IMessage TransactionEventRequest) :
    (handleTransactionEvent env message).reservations
      = if jsTruthyInt message.payload.reservationId then
          updateReservationsByQuery env.reservations
            (message.payload.reservationId.getD 0)
            message.context.stationId
            message.payload.transactionInfo.transactionId
        else env.reservations := by
  cases h : message.payload.idToken <;> simp [handleTransactionEvent, h]

/-- C7: on every inbound `TransactionEvent`, the first effect the handler
requests — before any reservation update, authorization call, response
send or cost computation — is the durable
`createOrUpdateTransactionByTransactionEventAndStationId` write of the
event keyed by the station id, unconditionally on every path. -/
theorem C7_transaction_recorded_first :
    ∀ (env : TransactionsEnv) (message : IMessage TransactionEventRequest),
      (handleTransactionEvent env message).trace.head?
        = some (Effect.createOrUpdateTransaction message.payload
            message.context.stationId) := by
  intro env message
  cases h : message.payload.idToken <;> simp [handleTransactionEvent, h]

/-- C1 as stated is false: the source guards the cost updater with
JavaScript truthiness of `costUpdatedInterval` (`&& this._costUpdatedInterval`),
not with `interval > 0`. A configured interval of `-1` is truthy, so a
`Started` event with an accepted identity token arms the periodic cost
updater even though `-1 > 0` fails — contradicting "armed only if a
cost-update interval greater than 0 is configured". -/
theorem C1_counterexample_negative_interval :
    (handleTransactionEvent
        { costUpdatedInterval := some (-1)
          sendCostUpdatedOnMeterValue := none
          authResponse :=
            { idTokenInfo := some { status := AuthorizationStatusEnumType.Accepted }
              totalCost := none }
          reservations := []
          transaction := none
          tariff := none
          meterValuesOfTransaction := []
          meterValuesValid := true }
        { context := { stationId := "CS1", tenantId := "T1", correlationId := "c-1" }
          payload :=
            { eventType := TransactionEventEnumType.Started
              transactionInfo := { transactionId := "tx-1" }
              idToken := some { idToken := "tok-1" }
              reservationId := none
              meterValue := none } }).costUpdaterArmed = true
    ∧ ¬ (0 < (-1 : ℚ)) := by
  constructor
  · simp [handleTransactionEvent, jsTruthyNum]
  · norm_num

/-- C1 amended: the periodic cost updater is armed if and only if the
event carries an identity token, its type is `Started`, the authorization
result status is `Accepted`, and a **nonzero** cost-update interval is
configured (the source tests JavaScript truthiness, so a negative
interval also arms the task); with interval 0 or undefined — and on
every anonymous event — no task is armed. -/
theorem C1_cost_updater_armed_iff :
    ∀ (env : TransactionsEnv) (message : IMessage TransactionEventRequest),
      (handleTransactionEvent env message).costUpdaterArmed = true
        ↔ message.payload.idToken.isSome = true
          ∧ message.payload.eventType = TransactionEventEnumType.Started
          ∧ (∃ info, env.authResponse.idTokenInfo = some info
               ∧ info.status = AuthorizationStatusEnumType.Accepted)
          ∧ (∃ q : ℚ, env.costUpdatedInterval = some q ∧ q ≠ 0) := by
  intro env message
  cases htok : message.payload.idToken with
  | none => simp [handleTransactionEvent, htok]
  | some tok =>
    cases hinfo : env.authResponse.idTokenInfo with
    | none => simp [handleTransactionEvent, htok, hinfo]
    | some info =>
      cases hint : env.costUpdatedInterval with
      | none => simp [handleTransactionEvent, htok, hinfo, hint, jsTruthyNum]
      | some q =>
        simp [handleTransactionEvent, htok, hinfo, hint, jsTruthyNum, and_assoc]

/-- C3 as stated is false: meter-value signature validation inside
`_handleTransactionEvent` happens only on the anonymous (no-idToken)
path. A `TransactionEvent` that carries an identity token **and** meter
values with an invalid signature logs no warning at all — the values are
never validated — so "the handler logs a warning" fails for it (the
response is still sent and no error is raised, which the amended theorem
keeps). -/
theorem C3_counterexample_idtoken_no_warning :
    (handleTransactionEvent
        { costUpdatedInterval := none
          sendCostUpdatedOnMeterValue := none
          authResponse :=
            { idTokenInfo := some { status := AuthorizationStatusEnumType.Accepted }
              totalCost := none }
          reservations := []
          transaction := none
          tariff := none
          meterValuesOfTransaction := []
          meterValuesValid := false }
        { context := { stationId := "CS1", tenantId := "T1", correlationId := "c-3" }
          payload :=
            { eventType := TransactionEventEnumType.Updated
              transactionInfo := { transactionId := "tx-3" }
              idToken := some { idToken := "tok-3" }
              reservationId := none
              meterValue := some [{ timestamp := 0, value := 1 }] } }).warningLogged
      = false := by
  simp [handleTransactionEvent]

/-- C3 amended: `_handleTransactionEvent` never raises an error and
always sends its correlated response — signature failure never blocks
it; and a warning is logged exactly when the event carries no identity
token, carries meter values, and their signature validation fails (with
an identity token present, meter values are not validated and no warning
is logged). -/
theorem C3_signature_failure_never_blocks_response :
    ∀ (env : TransactionsEnv) (message : IMessage TransactionEventRequest),
      (handleTransactionEvent env message).thrownError = none
      ∧ Effect.sendResponse (handleTransactionEvent env message).response
          ∈ (handleTransactionEvent env message).trace
      ∧ (handleTransactionEvent env message).warningLogged
          = (message.payload.idToken.isNone && message.payload.meterValue.isSome
             && !env.meterValuesValid) := by
  intro env message
  cases h : message.payload.idToken <;>
    refine ⟨?_, ?_, ?_⟩ <;> simp [handleTransactionEvent, h]

/-- C8 as stated is false: the source guards the reservation update with
JavaScript truthiness (`if (message.payload.reservationId)`), and `0` is
falsy. A `TransactionEvent` carrying reservation id `0` performs no
reservation write: the matching active reservation `{id := 0,
stationId := "CS1"}` stays active and untagged. -/
theorem C8_counterexample_reservation_zero :
    (handleTransactionEvent
        { costUpdatedInterval := none
          sendCostUpdatedOnMeterValue := none
          authResponse := { idTokenInfo := none, totalCost := none }
          reservations :=
            [{ id := 0, stationId := "CS1", isActive := true,
               terminatedByTransaction := none }]
          transaction := none
          tariff := none
          meterValuesOfTransaction := []
          meterValuesValid := true }
        { context := { stationId := "CS1", tenantId := "T1", correlationId := "c-8" }
          payload :=
            { eventType := TransactionEventEnumType.Started
              transactionInfo := { transactionId := "tx-8" }
              idToken := none
              reservationId := some 0
              meterValue := none } }).reservations
      = [{ id := 0, stationId := "CS1", isActive := true,
           terminatedByTransaction := none }] := by
  simp [handleTransactionEvent, jsTruthyInt]

/-- C8 amended: a `TransactionEvent` carrying a **nonzero** reservation id
updates exactly the reservations matching `(reservationId, stationId)` —
they become inactive with `terminatedByTransaction` set to the event's
transaction id, all others untouched; events without a reservation id,
or with the (falsy) reservation id `0`, perform no reservation write. -/
theorem C8_reservation_update_scoped :
    ∀ (env : TransactionsEnv) (message : IMessage TransactionEventRequest),
      (∀ rid : Int, message.payload.reservationId = some rid → rid ≠ 0 →
        (handleTransactionEvent env message).reservations
          = env.reservations.map (fun r =>
              if r.id = rid ∧ r.stationId = message.context.stationId then
                { r with isActive := false
                         terminatedByTransaction :=
                           some message.payload.transactionInfo.transactionId }
              else r))
      ∧ ((message.payload.reservationId = none
            ∨ message.payload.reservationId = some 0) →
          (handleTransactionEvent env message).reservations = env.reservations) := by
  intro env message
  constructor
  · intro rid hrid hne
    rw [handleTransactionEvent_reservations, hrid]
    simp [jsTruthyInt, hne, updateReservationsByQuery]
  · intro hcase
    rw [handleTransactionEvent_reservations]
    rcases hcase with h | h <;> rw [h] <;> simp [jsTruthyInt]

/-- Closed witness for the amended C8 theorem: the spec's scenario — a
`Started` event with reservation id 7 at station CS1 marks reservation 7
(scoped to CS1) inactive and terminated by the new transaction, leaving
a same-id reservation of another station untouched. -/
theorem C8_reservation_update_scoped_witness :
    (handleTransactionEvent
        { costUpdatedInterval := none
          sendCostUpdatedOnMeterValue := none
          authResponse := { idTokenInfo := none, totalCost := none }
          reservations :=
            [{ id := 7, stationId := "CS1", isActive := true,
               terminatedByTransaction := none },
             { id := 7, stationId := "CS2", isActive := true,
               terminatedByTransaction := none }]
          transaction := none
          tariff := none
          meterValuesOfTransaction := []
          meterValuesValid := true }
        { context := { stationId := "CS1", tenantId := "T1", correlationId := "c-8w" }
          payload :=
            { eventType := TransactionEventEnumType.Started
              transactionInfo := { transactionId := "tx-8w" }
              idToken := none
              reservationId := some 7
              meterValue := none } }).reservations
      = [{ id := 7, stationId := "CS1", isActive := false,
           terminatedByTransaction := some "tx-8w" },
         { id := 7, stationId := "CS2", isActive := true,
           terminatedByTransaction := none }] := by
  have h := (C8_reservation_update_scoped
      { costUpdatedInterval := none
        sendCostUpdatedOnMeterValue := none
        authResponse := { idTokenInfo := none, totalCost := none }
        reservations :=
          [{ id := 7, stationId := "CS1", isActive := true,
             terminatedByTransaction := none },
           { id := 7, stationId := "CS2", isActive := true,
             terminatedByTransaction := none }]
        transaction := none
        tariff := none
        meterValuesOfTransaction := []
        meterValuesValid := true }
      { context := { stationId := "CS1", tenantId := "T1", correlationId := "c-8w" }
        payload :=
          { eventType := TransactionEventEnumType.Started
            transactionInfo := { transactionId := "tx-8w" }
            idToken := none
            reservationId := some 7
            meterValue := none } }).1 7 rfl (by norm_num)
  rw [h]
  simp

end CitrineOS
